import Mathlib

/-!
# Verification of the storyteller pipeline engine

A shallow embedding of the storyteller repository's pipeline-orchestration and
resilient-generation code, together with theorems settling the specification
claims about it.

The embedding covers:
* the byte-budget sentence chunker (`chunkText`, frontend version);
* the JSON-decoration stripper (`cleanJsonResponse`);
* the generation client with retry and model fallback (`generateWithModel`);
* the structured-stage endpoint handlers with their parse/validate/one-strict-retry
  control flow (extract key elements, generate outline);
* the front-end pipeline state machine (`processStep`, `handleSubmit`,
  `handleExpandMore`, `regenerateFromChapterPrompt`, `loadProgress`) and its
  key-element union-merge (`mergeUnique`, `mergedCharacters`).

External effects (the LLM completion service, `fetch` responses, `JSON.parse`,
`crypto.subtle` hashing) are modelled as explicit oracle parameters; everything
else is translated directly from the TypeScript source.
-/

namespace Storyteller

/-! ## JavaScript string primitives

Text is modelled as `List Char`.  `jsTrim` models `String.prototype.trim`,
`utf8Bytes`/`byteLen` model `TextEncoder().encode(s).length`, and `truthy`
models JavaScript truthiness of a string (falsy iff empty). -/

/-- Characters treated as whitespace by `trim` and by the regex class `\s`
(the common ASCII whitespace characters, which are the only ones the proofs
and counterexamples exercise). -/
def isWSChar (c : Char) : Bool :=
  c = ' ' || c = '\t' || c = '\n' || c = '\r' || c = '\x0b' || c = '\x0c'

/-- Sentence-terminal punctuation, the class `[.!?]`. -/
def isTermChar (c : Char) : Bool := c = '.' || c = '!' || c = '?'

/-- `String.prototype.trim` on a character list. -/
def trimChars (l : List Char) : List Char :=
  ((l.dropWhile isWSChar).reverse.dropWhile isWSChar).reverse

/-- UTF-8 byte width of one character (what `TextEncoder` produces). -/
def utf8Bytes (c : Char) : Nat :=
  if c.toNat < 0x80 then 1
  else if c.toNat < 0x800 then 2
  else if c.toNat < 0x10000 then 3
  else 4

/-- UTF-8 byte length of a text, `new TextEncoder().encode(s).length`. -/
def byteLen (l : List Char) : Nat := l.foldl (fun a c => a + utf8Bytes c) 0

/-- JavaScript truthiness of a string: falsy iff empty. -/
def truthy (s : String) : Bool := s != ""

/-- `String.prototype.trim` on `String`. -/
def jsTrimS (s : String) : String := String.mk (trimChars s.data)

/-! ## The sentence matcher

`text.match(/[^.!?]+[.!?]+/gs)` returns the list of non-overlapping leftmost
matches: each match is a maximal run of non-terminal characters followed by a
maximal run of terminal characters.  A leading terminal run and a trailing
non-terminal run that is not followed by a terminal are not part of any match.
`sentencesAux ns ts l` scans `l`, holding the pending non-terminal run `ns`
and the pending terminal run `ts` of the match currently being built. -/

def sentencesAux : List Char → List Char → List Char → List (List Char)
  | ns, ts, [] => if ts.isEmpty then [] else [ns ++ ts]
  | ns, ts, c :: rest =>
    if isTermChar c then
      if ns.isEmpty && ts.isEmpty then
        -- a terminal with no preceding non-terminal starts no match
        sentencesAux ns ts rest
      else
        sentencesAux ns (ts ++ [c]) rest
    else
      if ts.isEmpty then
        sentencesAux (ns ++ [c]) ts rest
      else
        -- the pending match is complete; this character starts the next one
        (ns ++ ts) :: sentencesAux [c] [] rest

/-- `text.match(/[^.!?]+[.!?]+/gs) || [text]`: the matched sentences, or the
whole text as a single pseudo-sentence when there is no match. -/
def matchSentences (text : List Char) : List (List Char) :=
  let m := sentencesAux [] [] text
  if m.isEmpty then [text] else m

/-! ## The chunker (frontend version, `part_000` lines 234–261)

Greedy accumulation of sentences into chunks bounded by a UTF-8 byte budget.
Note two source details the claims turn on: a single space is inserted between
accumulated sentences (`currentChunk += ' ' + sentence`), and each pushed
chunk is trimmed (`chunks.push(currentChunk.trim())`). -/

def chunkLoop (maxBytes : Nat) : List (List Char) → List Char → Nat → List (List Char)
  | [], cur, _ => if cur.isEmpty then [] else [trimChars cur]
  | s :: rest, cur, curBytes =>
    let sb := byteLen s
    if curBytes + sb > maxBytes then
      (if cur.isEmpty then [] else [trimChars cur]) ++ chunkLoop maxBytes rest s sb
    else
      chunkLoop maxBytes rest (cur ++ [' '] ++ s) (curBytes + sb)

/-- `chunkText(text, maxBytes = 50000)` from the frontend component. -/
def chunkText (text : List Char) (maxBytes : Nat) : List (List Char) :=
  chunkLoop maxBytes (matchSentences text) [] 0

/-! ## `cleanJsonResponse` (`server.ts` lines 453–459)

Four chained regex replacements stripping model decoration from a JSON reply. -/

/-- `.replace(/^```json\s*\n?/, '')`: strip one leading fenced-code opener.
The greedy `\s*` absorbs all whitespace following the fence marker. -/
def cleanStep1 (l : List Char) : List Char :=
  if "```json".toList.isPrefixOf l then (l.drop 7).dropWhile isWSChar else l

/-- Does `l` end with `suffix`? -/
def endsWithL (l suffix : List Char) : Bool := suffix.reverse.isPrefixOf l.reverse

/-- `.replace(/\n?```$/, '')`: strip one trailing fence, preferring to take a
directly preceding newline with it (the leftmost match starts at the `\n`). -/
def cleanStep2 (l : List Char) : List Char :=
  if endsWithL l ('\n' :: "```".toList) then l.take (l.length - 4)
  else if endsWithL l "```".toList then l.take (l.length - 3)
  else l

/-- The `{` character, written via its code point. -/
def lbraceChar : Char := Char.ofNat 123

/-- The `}` character, written via its code point. -/
def rbraceChar : Char := Char.ofNat 125

/-- `.replace(/^\s*[\[\{]/, m => m.trim())`: drop whitespace before a leading
bracket or brace. -/
def cleanStep3 (l : List Char) : List Char :=
  let l2 := l.dropWhile isWSChar
  match l2 with
  | c :: _ => if c = '[' || c = lbraceChar then l2 else l
  | [] => l

/-- `.replace(/,\s*([\]\}])/g, '$1')`: delete every comma (with any following
whitespace) that directly precedes a closing bracket or brace.  Implemented as
a one-pass scanner: `pend` buffers a comma plus trailing whitespace until the
next non-whitespace character decides whether the buffer is dropped (closing
bracket) or emitted verbatim. -/
def cleanStep4Aux : Option (List Char) → List Char → List Char
  | none, [] => []
  | some pend, [] => pend
  | none, c :: rest =>
    if c = ',' then cleanStep4Aux (some [c]) rest
    else c :: cleanStep4Aux none rest
  | some pend, c :: rest =>
    if isWSChar c then cleanStep4Aux (some (pend ++ [c])) rest
    else if c = ']' || c = rbraceChar then c :: cleanStep4Aux none rest
    else if c = ',' then pend ++ cleanStep4Aux (some [c]) rest
    else pend ++ (c :: cleanStep4Aux none rest)

def cleanStep4 (l : List Char) : List Char := cleanStep4Aux none l

/-- `cleanJsonResponse` as a `String` transformer. -/
def cleanJsonResponse (s : String) : String :=
  String.mk (cleanStep4 (cleanStep3 (cleanStep2 (cleanStep1 s.data))))

/-! ## The generation client (`server.ts` lines 461–491)

`generateWithModel(prompt, model, client, retries = 3, isFallback = false)`
makes one completion attempt; on a transport error or an empty body it retries
while `retries > 0`, then, when the requested model is not already the
conservative fallback model and this is not already the fallback cycle, starts
one fresh cycle of `retries = 3` against the fallback model.

The completion service is the oracle `gen model n` (`n` is the global attempt
counter, `none` is a transport/service error, `some ""` an empty body, both of
which throw in the source).  The embedding additionally returns the list of
models attempted, in order, so attempt counts are inspectable values. -/

def fallbackModel : String := "gpt-4o-mini"

def generateWithModel (gen : String → Nat → Option String) (prompt model : String)
    (log : List String) (retries : Nat) (isFallback : Bool) :
    Option String × List String :=
  let log1 := log ++ [model]
  match gen model log.length with
  | some out =>
    if out != "" then (some out, log1)
    else if 0 < retries then
      generateWithModel gen prompt model log1 (retries - 1) isFallback
    else if !isFallback && model ≠ fallbackModel then
      generateWithModel gen prompt fallbackModel log1 3 true
    else (none, log1)
  | none =>
    if 0 < retries then
      generateWithModel gen prompt model log1 (retries - 1) isFallback
    else if !isFallback && model ≠ fallbackModel then
      generateWithModel gen prompt fallbackModel log1 3 true
    else (none, log1)
termination_by ((if isFallback then 0 else 1), retries)
decreasing_by
  all_goals simp_wf
  all_goals first
    | exact Prod.Lex.right _ (by omega)
    | exact Prod.Lex.left _ _ (by simp_all)

/-! ## Story-element and chapter data

`Character`, `KeyElements` and the chapter records mirror the TypeScript
interfaces.  Raw parsed JSON is modelled with `JArr` (a field that should hold
an array: either an array, or absent/non-array, which `Array.isArray` rejects
and `.map` throws on) and with plain strings where the source only tests
truthiness (an absent field and an empty string behave identically there). -/

/-- A JSON field expected to be an array. -/
inductive JArr (α : Type) where
  | notArr
  | arr (xs : List α)
deriving Repr, DecidableEq

/-- `Array.prototype.map` with the element index passed to the callback,
`i` being the index of the first element of `l`. -/
def mapWithIdx (f : Nat → α → β) : Nat → List α → List β
  | _, [] => []
  | i, a :: as => f i a :: mapWithIdx f (i + 1) as

structure Character where
  name : String
  gender : String
  role : String
  traits : String
  affiliations : String
deriving Repr, DecidableEq

/-- One raw character object out of `JSON.parse` (absent fields are `""`). -/
structure CharacterJson where
  name : String
  gender : String
  role : String
  traits : String
  affiliations : String
deriving Repr, DecidableEq

structure KeyElements where
  characters : List Character
  keyEvents : List String
  timeline : List String
  uniqueDetails : List String
  mainStoryLines : List String
deriving Repr, DecidableEq

/-- Raw parsed shape of a key-elements reply. -/
structure KeyElementsJson where
  characters : JArr CharacterJson
  keyEvents : JArr String
  timeline : JArr String
  uniqueDetails : JArr String
  mainStoryLines : JArr String
deriving Repr, DecidableEq

/-- `keyElements.characters.map((char, idx) => ({...defaults...}))`
(`server.ts` lines 566–572 and 595–601). -/
def defaultCharacter (idx : Nat) (c : CharacterJson) : Character :=
  { name := if truthy c.name then c.name else "Character " ++ toString (idx + 1)
    gender := if truthy c.gender then c.gender else "Unknown"
    role := if truthy c.role then c.role else "Unknown"
    traits := if truthy c.traits then c.traits else "None"
    affiliations := c.affiliations }

/-- `keyElements.characters.some(char => !char.name || !char.gender || !char.role || !char.traits)`. -/
def charactersInvalid (cs : List Character) : Bool :=
  cs.any fun c => !truthy c.name || !truthy c.gender || !truthy c.role || !truthy c.traits

/-- First-try validation of the extract-key-elements endpoint (`server.ts`
lines 556–575): the five collections must be arrays, then characters are
backfilled with defaults, then the some-check runs. -/
def validateExtractFirst (ke : KeyElementsJson) : Option KeyElements :=
  match ke.characters, ke.keyEvents, ke.timeline, ke.uniqueDetails, ke.mainStoryLines with
  | .arr cs, .arr kev, .arr tl, .arr ud, .arr msl =>
    let cs2 := mapWithIdx defaultCharacter 0 cs
    if charactersInvalid cs2 then none
    else some ⟨cs2, kev, tl, ud, msl⟩
  | _, _, _, _, _ => none

/-- Retry-path validation (`server.ts` lines 594–611): here `.map` runs first
(throwing when `characters` is not an array), then the array checks and the
some-check. -/
def validateExtractRetry (ke : KeyElementsJson) : Option KeyElements :=
  match ke.characters with
  | .notArr => none
  | .arr cs =>
    let cs2 := mapWithIdx defaultCharacter 0 cs
    match ke.keyEvents, ke.timeline, ke.uniqueDetails, ke.mainStoryLines with
    | .arr kev, .arr tl, .arr ud, .arr msl =>
      if charactersInvalid cs2 then none
      else some ⟨cs2, kev, tl, ud, msl⟩
    | _, _, _, _ => none

/-- A structured-stage failure carrying the cleaned raw model text
(`throw Object.assign(new Error(...), { rawResponse: retryCleaned })`). -/
structure ContractError where
  message : String
  rawResponse : String
deriving Repr, DecidableEq

/-- The `/api/extract-key-elements` handler's generation/parse/retry control
flow (`server.ts` lines 552–615).  `gens` is the stream of texts produced by
successive `generateWithModel` calls and `parse` is the `JSON.parse` oracle
(`none` = parse throws).  Returns the outcome together with how many
generation calls were consumed. -/
def extractKeyElementsHandler (parse : String → Option KeyElementsJson)
    (gens : List String) : Except ContractError KeyElements × Nat :=
  let cleaned := cleanJsonResponse (gens.getD 0 "")
  match (parse cleaned).bind validateExtractFirst with
  | some ke => (.ok ke, 1)
  | none =>
    let retryCleaned := cleanJsonResponse (gens.getD 1 "")
    match (parse retryCleaned).bind validateExtractRetry with
    | some ke => (.ok ke, 2)
    | none => (.error ⟨"Invalid JSON response", retryCleaned⟩, 2)

/-- One raw chapter object out of `JSON.parse` (absent string fields are `""`,
array fields may be absent/non-array). -/
structure ChapterJson where
  title : String
  summary : String
  keyEvents : JArr String
  characterTraits : JArr String
  timeline : String
deriving Repr, DecidableEq

/-- A server-validated chapter. -/
structure ChapterS where
  title : String
  summary : String
  keyEvents : List String
  characterTraits : List String
  timeline : String
deriving Repr, DecidableEq

/-- `chapters.map((ch, idx) => ({...defaults...}))` (`server.ts` lines
672–678 and 714–720). -/
def defaultChapterS (idx : Nat) (ch : ChapterJson) : ChapterS :=
  { title := if truthy ch.title then ch.title else "Chapter " ++ toString (idx + 1)
    summary := if truthy ch.summary then ch.summary else "No summary available."
    keyEvents := match ch.keyEvents with | .arr xs => xs | .notArr => []
    characterTraits := match ch.characterTraits with | .arr xs => xs | .notArr => []
    timeline := if truthy ch.timeline then ch.timeline else "Unknown timeline" }

/-- `!chapters.every(ch => ch.title && ch.summary && Array.isArray(ch.keyEvents)
&& Array.isArray(ch.characterTraits) && ch.timeline)` after defaulting. -/
def chapterStructInvalid (chs : List ChapterS) : Bool :=
  !chs.all fun ch => truthy ch.title && truthy ch.summary && truthy ch.timeline

/-- Validation of one parsed outline reply (`server.ts` lines 668–684 /
712–726): default-fill each chapter, reject a chapter count outside 6–10,
reject structurally invalid chapters.  The value is the same on the first try
and on the retry (only the error messages differ); on the first try the
is-array check precedes the map, on the retry the map throws on a non-array,
so a non-array reply fails in both, which the caller encodes by handing this
function only arrays. -/
def validateOutlineChapters (cs : List ChapterJson) : Option (List ChapterS) :=
  let cs2 := mapWithIdx defaultChapterS 0 cs
  if cs2.length < 6 ∨ 10 < cs2.length then none
  else if chapterStructInvalid cs2 then none
  else some cs2

/-- The `/api/generate-outline` handler's generation/parse/retry control flow
(`server.ts` lines 664–731).  `parse` models `JSON.parse` (`none` = throws,
`some .notArr` = parsed to a non-array value). -/
def generateOutlineHandler (parse : String → Option (JArr ChapterJson))
    (gens : List String) : Except ContractError (List ChapterS) × Nat :=
  let cleaned := cleanJsonResponse (gens.getD 0 "")
  let first := match parse cleaned with
    | some (.arr cs) => validateOutlineChapters cs
    | _ => none
  match first with
  | some chs => (.ok chs, 1)
  | none =>
    let retryCleaned := cleanJsonResponse (gens.getD 1 "")
    let second := match parse retryCleaned with
      | some (.arr cs) => validateOutlineChapters cs
      | _ => none
    match second with
    | some chs => (.ok chs, 2)
    | none => (.error ⟨"Invalid JSON response", retryCleaned⟩, 2)

/-! ## Key-element union-merge (`part_000` lines 704–726)

`mergeUnique` models `new Set(a.map(JSON.stringify)); b.forEach(add);
Array.from(set).map(JSON.parse)` on string collections: `JSON.stringify` is
injective on strings and round-trips with `JSON.parse`, so the effect is
first-occurrence-preserving deduplicated union.  `mergedCharacters` models the
insertion-ordered `Map` keyed by `(c.name || c).toString()`: a character with
a truthy name is keyed by its name, otherwise by the object's default string
conversion `"[object Object]"`. -/

def setAdd (acc : List String) (x : String) : List String :=
  if x ∈ acc then acc else acc ++ [x]

def mergeUnique (a b : List String) : List String :=
  (a ++ b).foldl setAdd []

/-- `(c.name || c).toString()`. -/
def charKey (c : Character) : String :=
  if c.name = "" then "[object Object]" else c.name

/-- JavaScript `Map.prototype.set` on an insertion-ordered association list:
an existing key keeps its position and gets the new value, a new key is
appended. -/
def mapSet (m : List (String × Character)) (k : String) (v : Character) :
    List (String × Character) :=
  if m.any (fun p => p.1 = k) then
    m.map fun p => if p.1 = k then (k, v) else p
  else m ++ [(k, v)]

/-- The `mergedCharacters` IIFE: seed the map with the existing characters,
then add each new character only when its key is not yet present, and read the
values back in insertion order. -/
def mergedCharacters (base newChars : List Character) : List Character :=
  let m1 := base.foldl (fun m c => mapSet m (charKey c) c) []
  let m2 := newChars.foldl
    (fun m c => if m.any (fun p => p.1 = charKey c) then m else mapSet m (charKey c) c) m1
  m2.map Prod.snd

/-- `augmentedKeyElements` built from the base elements and a freshly extracted
set (`part_000` lines 720–726). -/
def augmentKeyElements (base newKE : KeyElements) : KeyElements :=
  { characters := mergedCharacters base.characters newKE.characters
    keyEvents := mergeUnique base.keyEvents newKE.keyEvents
    timeline := mergeUnique base.timeline newKE.timeline
    uniqueDetails := mergeUnique base.uniqueDetails newKE.uniqueDetails
    mainStoryLines := mergeUnique base.mainStoryLines newKE.mainStoryLines }

/-! ## Front-end pipeline state

The component's `useState` fields that the pipeline operations read or write.
`fetch` responses are modelled by `Resp`: `notOk` is a non-2xx reply (the
error branch), `okBad` a 2xx reply whose body fails `JSON.parse` (so
`response.json()` / `parseJsonResponse` throws), `okGood` a 2xx reply with its
parsed payload. -/

inductive Resp (α : Type) where
  | notOk
  | okBad
  | okGood (a : α)
deriving Repr, DecidableEq

/-- A front-end chapter after `validatedChapters` mapping; `imagePrompt` and
`imageUrl` start absent (modelled `""`). -/
structure Chapter where
  title : String
  summary : String
  keyEvents : List String
  characterTraits : List String
  timeline : String
  imagePrompt : String
  imageUrl : String
deriving Repr, DecidableEq

/-- `data.chapters.map(ch => ({...defaults...}))` on the front end
(`part_000` lines 749–755 and 861–867). -/
def frontendValidateChapter (ch : ChapterJson) : Chapter :=
  { title := if truthy ch.title then ch.title else "Untitled Chapter"
    summary := if truthy ch.summary then ch.summary else "No summary available."
    keyEvents := match ch.keyEvents with | .arr xs => xs | .notArr => []
    characterTraits := match ch.characterTraits with | .arr xs => xs | .notArr => []
    timeline := if truthy ch.timeline then ch.timeline else "Unknown timeline"
    imagePrompt := ""
    imageUrl := "" }

structure AppState where
  draft : String
  condensedDraft : String
  keyElements : Option KeyElements
  summaryPrompt : String
  outlinePrompt : String
  chapters : List Chapter
  expandedChapters : List String
  expansionCounts : List Nat
  chapterPrompts : List String
  currentStep : Nat
  currentChapterIndex : Nat
  draftHash : String
  model : String
  coverImage : String
  bookTitle : String
  globalImageStyle : String
  status : String
  error : String
  rawError : String
deriving Repr, DecidableEq

/-- The component's initial state (the `useState` initialisers). -/
def initState : AppState :=
  { draft := "", condensedDraft := "", keyElements := none
    summaryPrompt := "", outlinePrompt := ""
    chapters := [], expandedChapters := [], expansionCounts := [], chapterPrompts := []
    currentStep := 0, currentChapterIndex := 0, draftHash := ""
    model := "gpt-5-mini", coverImage := "", bookTitle := "", globalImageStyle := ""
    status := "", error := "", rawError := "" }

/-- JavaScript array write `xs[i] = v`: in range it overwrites; past the end it
extends the array, with holes reading back as absent (modelled by the
element's falsy default `d`). -/
def jsSet (d : α) (xs : List α) (i : Nat) (v : α) : List α :=
  if i < xs.length then xs.set i v
  else xs ++ List.replicate (i - xs.length) d ++ [v]

def jsSetStr (xs : List String) (i : Nat) (v : String) : List String :=
  jsSet "" xs i v

def jsSetNat (xs : List Nat) (i : Nat) (v : Nat) : List Nat :=
  jsSet 0 xs i v

/-- `newChapters[idx] = {...newChapters[idx], imagePrompt, imageUrl}` (in
range whenever it runs, because of the `currentChapterIndex <
chapters.length` branch guard). -/
def updateChapterImage (cs : List Chapter) (i : Nat) (p u : String) : List Chapter :=
  cs.mapIdx fun j ch => if j = i then { ch with imagePrompt := p, imageUrl := u } else ch

/-! ## The pipeline state machine (`part_000` lines 790–985)

`processStep` advances the pipeline by one stage.  The six backend calls it
can make are modelled by a `StepOracle`.  A thrown error anywhere in the
`try` block lands in the `catch`, which sets the `error` message (`stepFailed`
below; the interpolated `err.message` is not modelled, only that the message
is non-empty); the stage pointer setters are only reached on success. -/

structure StepOracle where
  summarize : Nat → Resp String
  extract : Resp KeyElements
  outline : Resp (List ChapterJson)
  expand : Resp String
  imagePrompt : Resp String
  /-- payload is `imageData.imageUrl || ''`. -/
  image : Resp String

/-- The `catch` block: `setError('Step failed: ...')`, `setRawError(err.rawResponse
|| '')` (the oracles carry no raw text, so `rawError` is `""`). -/
def stepFailed (s : AppState) : AppState :=
  { s with error := "Step failed. Click Continue to retry.", rawError := "" }

/-- The chunk-summarization loop of step 0: each chunk's summary is appended
with a trailing space; any failed call throws out of the loop. -/
def summarizeLoop (o : Nat → Resp String) (n : Nat) : Option String :=
  (List.range n).foldl
    (fun acc i => acc.bind fun a =>
      match o i with
      | .okGood t => some (a ++ t ++ " ")
      | _ => none)
    (some "")

/-- Tail of the expansion step once the image phase finished: write the image
data into the chapter, advance the chapter index.  (Cover-image generation on
the last chapter is deferred through `setTimeout` and is a separate
operation.) -/
def finishChapter (s : AppState) (idx : Nat) (p u : String) : AppState :=
  let s1 := { s with chapters := updateChapterImage s.chapters idx p u
                     currentChapterIndex := idx + 1
                     status := "Chapter expanded (see below)." }
  if idx + 1 = s1.chapters.length then
    { s1 with status := "All chapters expanded—full story ready!" }
  else s1

def processStep (s0 : AppState) (o : StepOracle) : AppState :=
  let s := { s0 with error := "", rawError := "" }
  if s.currentStep = 0 then
    let s := { s with status := "Step 1: Summarizing draft chunks..." }
    let chunks := chunkText s.draft.data 50000
    match summarizeLoop o.summarize chunks.length with
    | some condensed =>
      { s with condensedDraft := jsTrimS condensed
               currentStep := 1
               status := "Step 1 complete: Condensed draft ready (see below)." }
    | none => stepFailed s
  else if s.currentStep = 1 then
    let s := { s with status := "Step 2: Extracting key elements..." }
    match o.extract with
    | .okGood ke =>
      { s with keyElements := some ke
               currentStep := 2
               status := "Step 2 complete: Key elements extracted (see below)." }
    | _ => stepFailed s
  else if s.currentStep = 2 then
    let s := { s with status := "Step 3: Generating chapter outline..." }
    match o.outline with
    | .okGood cs =>
      let validated := cs.map frontendValidateChapter
      { s with chapters := validated
               expandedChapters := List.replicate validated.length ""
               expansionCounts := List.replicate validated.length 0
               chapterPrompts := List.replicate validated.length ""
               currentStep := 3
               currentChapterIndex := 0
               status := "Step 3 complete: Outline generated (see below)." }
    | _ => stepFailed s
  else if s.currentStep = 3 ∧ s.currentChapterIndex < s.chapters.length then
    let idx := s.currentChapterIndex
    let s := { s with status := "Step 4: Expanding chapter..." }
    match o.expand with
    | .okGood details =>
      -- the expansion result is committed before the image phase begins
      let s := { s with expandedChapters := jsSetStr s.expandedChapters idx details }
      match o.imagePrompt with
      | .notOk => finishChapter s idx "" ""     -- warn only, continue without an image
      | .okBad => stepFailed s                  -- parseJsonResponse throws
      | .okGood p =>
        match o.image with
        | .notOk => finishChapter s idx p ""    -- warn only
        | .okBad => stepFailed s                -- parseJsonResponse throws
        | .okGood url => finishChapter s idx p url
    | _ => stepFailed s
  else s

/-! ## `handleExpandMore` (`part_000` lines 1083–1132)

The server's `/api/expand-chapter-more` endpoint returns the model's output
verbatim (`server.ts` lines 902–905); the front end then *assigns* it to the
chapter's slot and bumps the expansion count. -/

def handleExpandMore (s0 : AppState) (chapterIndex : Nat) (resp : Resp String) :
    AppState :=
  let s := { s0 with error := "", rawError := ""
                     status := "Expanding chapter further..." }
  match resp with
  | .okGood details =>
    let newCount := s.expansionCounts.getD chapterIndex 0 + 1
    { s with expandedChapters := jsSetStr s.expandedChapters chapterIndex details
             expansionCounts := jsSetNat s.expansionCounts chapterIndex newCount
             status := "Chapter expanded further." }
  | _ =>
    { s with error := "Further expansion failed. Try again.", rawError := "" }

/-! ## `regenerateFromChapterPrompt` (`part_000` lines 641–788)

Regenerates the outline after the chapter-level prompt at `chapterIndex`
changed.  The request *prompt* instructs the model to keep the first
`chapterIndex` chapters as provided, but the returned chapter array replaces
the state's chapter array wholesale; only the expansion texts/counts (below
the edited index) and the per-chapter prompts are spliced over from the old
state.  The augmentation call's merged key elements feed only the outline
request; they are never stored (`setKeyElements` is not called). -/

def regenerateFromChapterPrompt (s0 : AppState) (chapterIndex : Nat)
    (extractResp : Resp KeyElements) (outlineResp : Resp (List ChapterJson)) :
    AppState :=
  if s0.condensedDraft = "" then
    { s0 with error := "Cannot regenerate outline: condensed draft is empty." }
  else
    match s0.keyElements with
    | none =>
      { s0 with error := "Cannot regenerate outline: key elements missing. Run Step 2 first." }
    | some ke =>
      let s := { s0 with error := "", rawError := ""
                         status := "Regenerating outline from chapter onward..." }
      let _augmented : KeyElements :=
        match extractResp with
        | .okGood newKE => augmentKeyElements ke newKE
        | _ => ke
      match outlineResp with
      | .okGood cs =>
        let validated := cs.map frontendValidateChapter
        let newLen := validated.length
        let newExpanded := (List.range newLen).map fun i =>
          if i < chapterIndex then s.expandedChapters.getD i "" else ""
        let newCounts := (List.range newLen).map fun i =>
          if i < chapterIndex then s.expansionCounts.getD i 0 else 0
        let newPrompts := (List.range newLen).map fun i => s.chapterPrompts.getD i ""
        { s with chapters := validated
                 expandedChapters := newExpanded
                 expansionCounts := newCounts
                 chapterPrompts := newPrompts
                 currentStep := 3
                 currentChapterIndex := min s.currentChapterIndex newLen
                 status := "Outline regenerated from the edited chapter onward." }
      | _ =>
        { s with error := "Outline regeneration failed.", rawError := "" }

/-! ## `loadProgress` (`part_000` lines 297–361) and `handleSubmit`
(`part_000` lines 987–1030)

`loadProgress` restores the component state from two persisted blobs; each
`JSON.parse` is an oracle.  `handleSubmit` hashes the current draft, stores
the hash, optionally generates an image style when starting fresh, and runs
`processStep`. -/

structure PromptsJson where
  summaryPrompt : String
  outlinePrompt : String
  model : String
  globalImageStyle : String
deriving Repr, DecidableEq

structure ProgressJson where
  draft : String
  draftHash : String
  condensedDraft : String
  keyElements : Option KeyElements
  summaryPrompt : String
  outlinePrompt : String
  chapters : List Chapter
  expandedChapters : List String
  expansionCounts : List Nat
  chapterPrompts : List String
  currentStep : Nat
  currentChapterIndex : Nat
  model : String
  coverImage : String
  bookTitle : String
  globalImageStyle : String
deriving Repr, DecidableEq

def loadProgress (promptsRaw stored : Option String)
    (parsePrompts : String → Option PromptsJson)
    (parseProgress : String → Option ProgressJson)
    (hashDraft : String → String) : AppState :=
  -- the prompts block has its own try/catch: a parse failure only warns
  let s1 :=
    match promptsRaw with
    | none => initState
    | some raw =>
      match parsePrompts raw with
      | none => initState
      | some p =>
        { initState with
            summaryPrompt := p.summaryPrompt
            outlinePrompt := p.outlinePrompt
            model := if truthy p.model then p.model else initState.model
            globalImageStyle :=
              if truthy p.globalImageStyle then p.globalImageStyle
              else initState.globalImageStyle }
  match stored with
  | none => { s1 with status := "No saved progress found—start fresh with your draft." }
  | some raw =>
    match parseProgress raw with
    | none =>
      -- JSON.parse threw before any artifact setter ran
      { s1 with status := "Saved progress corrupted—start fresh." }
    | some p =>
      let draftToHash := if truthy p.draft then p.draft else p.condensedDraft
      let currentHash :=
        if truthy p.draftHash then p.draftHash
        else if truthy draftToHash then hashDraft draftToHash else ""
      { s1 with
          draft := if truthy p.draft then p.draft else s1.draft
          condensedDraft := p.condensedDraft
          keyElements := p.keyElements
          summaryPrompt := if truthy p.summaryPrompt then p.summaryPrompt else s1.summaryPrompt
          outlinePrompt := if truthy p.outlinePrompt then p.outlinePrompt else s1.outlinePrompt
          chapters := p.chapters
          expandedChapters := p.expandedChapters
          expansionCounts := p.expansionCounts
          chapterPrompts := p.chapterPrompts
          currentStep := p.currentStep
          currentChapterIndex := p.currentChapterIndex
          draftHash := currentHash
          model := if truthy p.model then p.model else s1.model
          coverImage := p.coverImage
          bookTitle := p.bookTitle
          globalImageStyle :=
            if truthy p.globalImageStyle then p.globalImageStyle else s1.globalImageStyle
          status := "Loaded saved progress—draft and prompts restored." }

def handleSubmit (s0 : AppState) (hashDraft : String → String)
    (styleResp : Resp String) (o : StepOracle) : AppState :=
  if jsTrimS s0.draft = "" then { s0 with error := "Draft cannot be empty." }
  else
    let s := { s0 with draftHash := hashDraft s0.draft }
    if s.currentStep = 0 ∧ s.condensedDraft = "" then
      let s := { s with status := "Analyzing draft to generate custom image style..." }
      let s :=
        match styleResp with
        | .okGood style => if truthy style then { s with globalImageStyle := style } else s
        | _ => s   -- warn only, keep the default style
      processStep { s with status := "Starting fresh: Summarizing draft..." } o
    else
      processStep { s with status := "Resuming from saved progress..." } o

/-! ## Concrete sample data for witnesses and counterexamples -/

/-- A completion oracle that always fails with a transport error. -/
def genNone : String → Nat → Option String := fun _ _ => none

/-- A well-formed sample chapter reply object. -/
def sampleChapterJson (t : String) : ChapterJson :=
  { title := t, summary := "S", keyEvents := .arr ["e"], characterTraits := .arr ["ct"]
    timeline := "tl" }

/-- A front-end chapter with the given title. -/
def mkChapter (t : String) : Chapter :=
  { title := t, summary := "S", keyEvents := ["e"], characterTraits := ["ct"]
    timeline := "tl", imagePrompt := "", imageUrl := "" }

/-- An empty key-elements record. -/
def sampleKE : KeyElements :=
  { characters := [], keyEvents := [], timeline := [], uniqueDetails := []
    mainStoryLines := [] }

/-- A state mid-way through expansion, used to exercise `handleExpandMore`:
chapter 0 already has non-empty expanded text. -/
def c2State : AppState :=
  { initState with
      condensedDraft := "cd", keyElements := some sampleKE
      chapters := [mkChapter "T"], expandedChapters := ["hello world"]
      expansionCounts := [0], chapterPrompts := [""]
      currentStep := 3, currentChapterIndex := 1 }

/-- An eight-chapter outlined-and-expanded state, used to exercise the
continuity propagator. -/
def c4State : AppState :=
  { initState with
      condensedDraft := "cd", keyElements := some sampleKE
      chapters := ["A0", "A1", "A2", "A3", "A4", "A5", "A6", "A7"].map mkChapter
      expandedChapters := ["x0", "x1", "x2", "x3", "x4", "x5", "x6", "x7"]
      expansionCounts := [1, 1, 1, 1, 1, 1, 1, 1]
      chapterPrompts := ["p0", "p1", "p2", "p3", "p4", "p5", "p6", "p7"]
      currentStep := 3, currentChapterIndex := 8 }

/-- An outline reply that ignores the preserve-the-prefix instruction: chapter
0 comes back with a different title. -/
def c4Resp : List ChapterJson :=
  ["B0", "A1", "A2", "A3", "A4", "A5", "A6", "A7"].map sampleChapterJson

/-- A state about to expand chapter 0. -/
def c5State : AppState :=
  { initState with
      condensedDraft := "cd", keyElements := some sampleKE
      chapters := [mkChapter "T"], expandedChapters := [""]
      expansionCounts := [0], chapterPrompts := [""]
      currentStep := 3, currentChapterIndex := 0 }

/-- An oracle where chapter expansion succeeds but the image-prompt response
body is unparseable, so `parseJsonResponse` throws after the expansion result
was already committed. -/
def c5Oracle : StepOracle :=
  { summarize := fun _ => .notOk, extract := .notOk, outline := .notOk
    expand := .okGood "NEW", imagePrompt := .okBad, image := .notOk }

/-- A state restored from saved progress (stage pointer past summarization,
condensed draft present) whose stored fingerprint is `"oldhash"`, while the
draft in the editor now hashes to something else. -/
def c8State : AppState :=
  { initState with
      draft := "NEW DRAFT.", condensedDraft := "cd", keyElements := none
      currentStep := 1, draftHash := "oldhash" }

/-- A hash oracle under which the current draft's fingerprint differs from the
stored one. -/
def c8Hash : String → String := fun _ => "newhash"

/-- An oracle whose extract call succeeds, so resumption proceeds normally. -/
def c8Oracle : StepOracle :=
  { summarize := fun _ => .notOk, extract := .okGood sampleKE, outline := .notOk
    expand := .notOk, imagePrompt := .notOk, image := .notOk }

/-! ## Helper lemmas -/

lemma truthy_iff {s : String} : truthy s = true ↔ s ≠ "" := by
  simp [truthy, bne_iff_ne]

lemma append_ne_empty {s : String} (t : String) (h : s.data ≠ []) : s ++ t ≠ "" := by
  intro he
  apply h
  have hd := congrArg String.data he
  rw [String.data_append] at hd
  exact (List.append_eq_nil.mp hd).1

lemma length_mapWithIdx (f : Nat → α → β) (i : Nat) (l : List α) :
    (mapWithIdx f i l).length = l.length := by
  induction l generalizing i with
  | nil => rfl
  | cons a as ih => simp [mapWithIdx, ih]

lemma defaultChapterS_truthy (i : Nat) (ch : ChapterJson) :
    truthy (defaultChapterS i ch).title = true ∧
    truthy (defaultChapterS i ch).summary = true ∧
    truthy (defaultChapterS i ch).timeline = true := by
  refine ⟨?_, ?_, ?_⟩ <;> simp only [defaultChapterS] <;> split
  · assumption
  · exact truthy_iff.mpr (append_ne_empty _ (by decide))
  · assumption
  · exact truthy_iff.mpr (by decide)
  · assumption
  · exact truthy_iff.mpr (by decide)

lemma chapterStructInvalid_mapWithIdx (i : Nat) (cs : List ChapterJson) :
    chapterStructInvalid (mapWithIdx defaultChapterS i cs) = false := by
  induction cs generalizing i with
  | nil => rfl
  | cons c cs ih =>
    have h := defaultChapterS_truthy i c
    have ih' := ih (i + 1)
    simp [chapterStructInvalid, mapWithIdx, List.all_cons, h.1, h.2.1, h.2.2] at *
    exact ih'

/-! ## C7: chapter-count bounds of the outline stage -/

/-- C7: the outline stage's validation rejects every parsed chapter list with
fewer than 6 or more than 10 chapters, and accepts a list with exactly 6 or
exactly 10 chapters (the remaining structural checks always pass after
default-filling). -/
theorem c7_outline_chapter_count (cs : List ChapterJson) :
    (cs.length < 6 ∨ 10 < cs.length → validateOutlineChapters cs = none) ∧
    ((cs.length = 6 ∨ cs.length = 10) →
      validateOutlineChapters cs = some (mapWithIdx defaultChapterS 0 cs)) := by
  constructor
  · intro h
    simp only [validateOutlineChapters, length_mapWithIdx]
    rw [if_pos h]
  · intro h
    simp only [validateOutlineChapters, length_mapWithIdx]
    rw [if_neg (by omega), if_neg (by simp [chapterStructInvalid_mapWithIdx])]

/-- Witness for C7 at concrete chapter lists of sizes 5, 6, 10 and 11. -/
theorem c7_outline_chapter_count_witness :
    validateOutlineChapters (List.replicate 5 (sampleChapterJson "T")) = none ∧
    validateOutlineChapters (List.replicate 6 (sampleChapterJson "T")) =
      some (mapWithIdx defaultChapterS 0 (List.replicate 6 (sampleChapterJson "T"))) ∧
    validateOutlineChapters (List.replicate 10 (sampleChapterJson "T")) =
      some (mapWithIdx defaultChapterS 0 (List.replicate 10 (sampleChapterJson "T"))) ∧
    validateOutlineChapters (List.replicate 11 (sampleChapterJson "T")) = none :=
  ⟨(c7_outline_chapter_count _).1 (by simp),
   (c7_outline_chapter_count _).2 (by simp),
   (c7_outline_chapter_count _).2 (by simp),
   (c7_outline_chapter_count _).1 (by simp)⟩

/-! ## C9: name-uniqueness of the character merge -/

lemma keys_mapSet (m : List (String × Character)) (k : String) (v : Character) :
    (mapSet m k v).map Prod.fst =
      if m.any (fun p => p.1 = k) then m.map Prod.fst else m.map Prod.fst ++ [k] := by
  unfold mapSet
  split
  · rw [List.map_map]
    refine List.map_congr_left fun p _ => ?_
    by_cases h : p.1 = k <;> simp [h]
  · simp

lemma nodup_keys_mapSet {m : List (String × Character)} {k : String} {v : Character}
    (h : (m.map Prod.fst).Nodup) : ((mapSet m k v).map Prod.fst).Nodup := by
  rw [keys_mapSet]
  split
  · exact h
  · rename_i hany
    have hk : k ∉ m.map Prod.fst := by
      intro hmem
      apply hany
      rcases List.mem_map.mp hmem with ⟨p, hp, hpk⟩
      exact List.any_eq_true.mpr ⟨p, hp, by simp [hpk]⟩
    simp [List.nodup_append, h, hk]

lemma pairs_mapSet {m : List (String × Character)} {v : Character}
    (hm : ∀ p ∈ m, p.1 = charKey p.2) :
    ∀ p ∈ mapSet m (charKey v) v, p.1 = charKey p.2 := by
  unfold mapSet
  split
  · intro p hp
    rcases List.mem_map.mp hp with ⟨q, hq, hpq⟩
    by_cases h : q.1 = charKey v
    · simp [h] at hpq
      rw [← hpq]
    · simp [h] at hpq
      rw [← hpq]
      exact hm q hq
  · intro p hp
    rcases List.mem_append.mp hp with h | h
    · exact hm p h
    · simp at h
      rw [h]

lemma foldl_mapSet_inv (cs : List Character) (m : List (String × Character))
    (h1 : (m.map Prod.fst).Nodup) (h2 : ∀ p ∈ m, p.1 = charKey p.2) :
    (((cs.foldl (fun m c => mapSet m (charKey c) c) m).map Prod.fst).Nodup) ∧
    (∀ p ∈ cs.foldl (fun m c => mapSet m (charKey c) c) m, p.1 = charKey p.2) := by
  induction cs generalizing m with
  | nil => exact ⟨h1, h2⟩
  | cons c cs ih =>
    exact ih (mapSet m (charKey c) c) (nodup_keys_mapSet h1) (pairs_mapSet h2)

lemma foldl_condMapSet_inv (cs : List Character) (m : List (String × Character))
    (h1 : (m.map Prod.fst).Nodup) (h2 : ∀ p ∈ m, p.1 = charKey p.2) :
    (((cs.foldl
        (fun m c => if m.any (fun p => p.1 = charKey c) then m else mapSet m (charKey c) c)
        m).map Prod.fst).Nodup) ∧
    (∀ p ∈ cs.foldl
        (fun m c => if m.any (fun p => p.1 = charKey c) then m else mapSet m (charKey c) c)
        m, p.1 = charKey p.2) := by
  induction cs generalizing m with
  | nil => exact ⟨h1, h2⟩
  | cons c cs ih =>
    by_cases h : m.any (fun p => p.1 = charKey c)
    · simpa [h] using ih m h1 h2
    · simpa [h] using ih (mapSet m (charKey c) c) (nodup_keys_mapSet h1) (pairs_mapSet h2)

lemma nodup_names_of_inv (m : List (String × Character))
    (h1 : (m.map Prod.fst).Nodup) (h2 : ∀ p ∈ m, p.1 = charKey p.2) :
    ((m.map Prod.snd).map Character.name).Nodup := by
  have hkeys : m.map Prod.fst =
      ((m.map Prod.snd).map Character.name).map
        (fun n => if n = "" then "[object Object]" else n) := by
    rw [List.map_map, List.map_map]
    exact List.map_congr_left fun p hp => by rw [h2 p hp]; rfl
  rw [hkeys] at h1
  exact h1.of_map _

/-- C9: the union-merge of two character collections never produces two
entries with the same name — every character's map key is a function of its
name alone, and the keys of the insertion-ordered map are unique by
construction. -/
theorem c9_merged_characters_unique_names (base newChars : List Character) :
    ((mergedCharacters base newChars).map Character.name).Nodup := by
  have hb := foldl_mapSet_inv base [] (by simp) (by simp)
  have hn := foldl_condMapSet_inv newChars _ hb.1 hb.2
  have h := nodup_names_of_inv _ hn.1 hn.2
  simpa [mergedCharacters] using h

/-! ## C6: one stricter retry, error carries the cleaned raw text -/

/-- C6: in both structured stages (extract elements, outline), once the first
response fails to parse or validate, the handler consumes exactly one further
generation (the stricter-prompt attempt) whatever its outcome; and when that
second attempt also fails to parse or validate, the surfaced error carries the
cleaned raw text of the second response, with no third generation consumed. -/
theorem c6_strict_retry_once (parseKE : String → Option KeyElementsJson)
    (parseOL : String → Option (JArr ChapterJson)) (g0 g1 : String)
    (h1 : (parseKE (cleanJsonResponse g0)).bind validateExtractFirst = none)
    (h3 : (match parseOL (cleanJsonResponse g0) with
           | some (.arr cs) => validateOutlineChapters cs
           | _ => none) = none) :
    (extractKeyElementsHandler parseKE [g0, g1]).2 = 2 ∧
    (generateOutlineHandler parseOL [g0, g1]).2 = 2 ∧
    ((parseKE (cleanJsonResponse g1)).bind validateExtractRetry = none →
      extractKeyElementsHandler parseKE [g0, g1] =
        (.error ⟨"Invalid JSON response", cleanJsonResponse g1⟩, 2)) ∧
    ((match parseOL (cleanJsonResponse g1) with
      | some (.arr cs) => validateOutlineChapters cs
      | _ => none) = none →
      generateOutlineHandler parseOL [g0, g1] =
        (.error ⟨"Invalid JSON response", cleanJsonResponse g1⟩, 2)) := by
  refine ⟨?_, ?_, ?_, ?_⟩
  · simp only [extractKeyElementsHandler, List.getD]
    rw [show ([g0, g1].get? 0).getD "" = g0 from rfl, h1]
    rcases h : (parseKE (cleanJsonResponse g1)).bind validateExtractRetry with _ | ke <;>
      simp [h]
  · simp only [generateOutlineHandler, List.getD]
    rw [show ([g0, g1].get? 0).getD "" = g0 from rfl, h3]
    rcases h : (match parseOL (cleanJsonResponse g1) with
                | some (.arr cs) => validateOutlineChapters cs
                | _ => none) with _ | chs <;> simp [h]
  · intro h2
    simp only [extractKeyElementsHandler, List.getD]
    rw [show ([g0, g1].get? 0).getD "" = g0 from rfl,
        show ([g0, g1].get? 1).getD "" = g1 from rfl, h1, h2]
  · intro h4
    simp only [generateOutlineHandler, List.getD]
    rw [show ([g0, g1].get? 0).getD "" = g0 from rfl,
        show ([g0, g1].get? 1).getD "" = g1 from rfl, h3, h4]

/-- Witness for C6 with a parse oracle that always fails. -/
theorem c6_strict_retry_once_witness :
    extractKeyElementsHandler (fun _ => none) ["x", "yz"] =
      (.error ⟨"Invalid JSON response", cleanJsonResponse "yz"⟩, 2) ∧
    generateOutlineHandler (fun _ => none) ["x", "yz"] =
      (.error ⟨"Invalid JSON response", cleanJsonResponse "yz"⟩, 2) := by
  have h := c6_strict_retry_once (fun _ => none) (fun _ => none) "x" "yz" rfl rfl
  exact ⟨h.2.2.1 rfl, h.2.2.2 rfl⟩

/-! ## C10: a corrupt progress blob never corrupts the state -/

/-- C10: when the stored progress blob fails to parse as JSON, the load
routine returns normally with every pipeline artifact (condensed draft, key
elements, chapters, expanded chapters, expansion counts, per-chapter prompts,
stage pointer, chapter index, draft) still at its initial empty value, and the
"start fresh" status is reported. -/
theorem c10_corrupt_progress_start_fresh (promptsRaw : Option String) (raw : String)
    (parsePrompts : String → Option PromptsJson)
    (parseProgress : String → Option ProgressJson)
    (hashDraft : String → String) (st : AppState)
    (hst : st = loadProgress promptsRaw (some raw) parsePrompts parseProgress hashDraft)
    (hbad : parseProgress raw = none) :
    st.condensedDraft = "" ∧ st.keyElements = none ∧ st.chapters = [] ∧
    st.expandedChapters = [] ∧ st.expansionCounts = [] ∧ st.chapterPrompts = [] ∧
    st.currentStep = 0 ∧ st.currentChapterIndex = 0 ∧ st.draft = "" ∧
    st.status = "Saved progress corrupted—start fresh." := by
  subst hst
  simp only [loadProgress, hbad]
  rcases promptsRaw with _ | raw2
  · simp [initState]
  · rcases hp : parsePrompts raw2 with _ | p <;> simp [hp, initState]

/-- Witness for C10 at a concrete unparseable blob. -/
theorem c10_corrupt_progress_start_fresh_witness :
    (loadProgress (some "x") (some "notjson") (fun _ => none) (fun _ => none)
        (fun _ => "h")).chapters = [] ∧
    (loadProgress (some "x") (some "notjson") (fun _ => none) (fun _ => none)
        (fun _ => "h")).currentStep = 0 ∧
    (loadProgress (some "x") (some "notjson") (fun _ => none) (fun _ => none)
        (fun _ => "h")).status = "Saved progress corrupted—start fresh." := by
  have h := c10_corrupt_progress_start_fresh (some "x") "notjson" (fun _ => none)
    (fun _ => none) (fun _ => "h") _ rfl rfl
  exact ⟨h.2.2.1, h.2.2.2.2.2.2.1, h.2.2.2.2.2.2.2.2.2⟩

/-! ## C1: the retry/fallback attempt bound -/

/-- With an always-failing completion service, the fallback cycle started with
`retries = r` makes exactly `r + 1` attempts on its model and gives up. -/
lemma gwm_allfail_fallback_cycle (gen : String → Nat → Option String)
    (hf : ∀ m n, gen m n = none) (prompt model : String) :
    ∀ (r : Nat) (log : List String),
      generateWithModel gen prompt model log r true =
        (none, log ++ List.replicate (r + 1) model) := by
  intro r
  induction r with
  | zero =>
    intro log
    rw [generateWithModel.eq_def, hf]
    simp
  | succ r ih =>
    intro log
    rw [generateWithModel.eq_def, hf]
    simp [ih (log ++ [model]), List.replicate_succ, List.append_assoc]

/-- With an always-failing completion service, a primary cycle on the fallback
model itself makes `r + 1` attempts and gives up without a fallback cycle. -/
lemma gwm_allfail_primary_is_fallback (gen : String → Nat → Option String)
    (hf : ∀ m n, gen m n = none) (prompt : String) :
    ∀ (r : Nat) (log : List String),
      generateWithModel gen prompt fallbackModel log r false =
        (none, log ++ List.replicate (r + 1) fallbackModel) := by
  intro r
  induction r with
  | zero =>
    intro log
    rw [generateWithModel.eq_def, hf]
    simp
  | succ r ih =>
    intro log
    rw [generateWithModel.eq_def, hf]
    simp [ih (log ++ [fallbackModel]), List.replicate_succ, List.append_assoc]

/-- With an always-failing completion service, a primary cycle on a
non-fallback model makes `r + 1` attempts on it, then 4 on the fallback. -/
lemma gwm_allfail_primary (gen : String → Nat → Option String)
    (hf : ∀ m n, gen m n = none) (prompt model : String) (hm : model ≠ fallbackModel) :
    ∀ (r : Nat) (log : List String),
      generateWithModel gen prompt model log r false =
        (none, log ++ List.replicate (r + 1) model ++ List.replicate 4 fallbackModel) := by
  intro r
  induction r with
  | zero =>
    intro log
    rw [generateWithModel.eq_def, hf]
    simp [hm, gwm_allfail_fallback_cycle gen hf prompt fallbackModel 3,
      List.replicate_succ, List.append_assoc]
  | succ r ih =>
    intro log
    rw [generateWithModel.eq_def, hf]
    simp [ih (log ++ [model]), List.replicate_succ, List.append_assoc]

/-- C1 (amended): with a generation stub that always fails, `generateWithModel`
starting at `retries = 3` makes exactly 4 attempts on the requested model
(1 initial + 3 retries) and then exactly 4 on the fallback model (8 total)
before surfacing the failure; when the requested model already is the fallback
model, exactly 4 attempts are made and no fallback cycle occurs. -/
theorem c1_retry_bound_amended (gen : String → Nat → Option String)
    (hf : ∀ m n, gen m n = none) (prompt model : String) (hm : model ≠ fallbackModel) :
    generateWithModel gen prompt model [] 3 false =
      (none, List.replicate 4 model ++ List.replicate 4 fallbackModel) ∧
    generateWithModel gen prompt fallbackModel [] 3 false =
      (none, List.replicate 4 fallbackModel) := by
  constructor
  · rw [gwm_allfail_primary gen hf prompt model hm 3 []]
    simp
  · rw [gwm_allfail_primary_is_fallback gen hf prompt 3 []]
    simp

/-- Witness for C1 (amended) at a concrete always-failing stub. -/
theorem c1_retry_bound_amended_witness :
    generateWithModel genNone "p" "gpt-4o" [] 3 false =
      (none, List.replicate 4 "gpt-4o" ++ List.replicate 4 fallbackModel) ∧
    generateWithModel genNone "p" fallbackModel [] 3 false =
      (none, List.replicate 4 fallbackModel) :=
  c1_retry_bound_amended genNone (fun _ _ => rfl) "p" "gpt-4o" (by decide)

/-- Counterexample to C1 as stated: with an always-failing stub the client
makes 8 attempts (4 + 4), not 6 (3 + 3); and when the requested model is the
fallback it makes 4 attempts, not 3. -/
theorem c1_retry_bound_counterexample :
    (generateWithModel genNone "p" "gpt-4o" [] 3 false).2.length ≠ 6 ∧
    (generateWithModel genNone "p" "gpt-4o-mini" [] 3 false).2.length ≠ 3 := by
  have h1 := gwm_allfail_primary genNone (fun _ _ => rfl) "p" "gpt-4o" (by decide) 3 []
  have h2 := gwm_allfail_primary_is_fallback genNone (fun _ _ => rfl) "p" 3 []
  rw [show ("gpt-4o-mini" : String) = fallbackModel from rfl, h2]
  rw [h1]
  simp

/-! ## C2: expand-more replaces the text and bumps the count -/

lemma jsSet_getD_self (d : α) (xs : List α) (i : Nat) (v : α) :
    (jsSet d xs i v).getD i d = v := by
  simp only [jsSet, List.getD_eq_getElem?_getD]
  split
  · rw [List.getElem?_set_eq_of_lt _ (by assumption)]
    rfl
  · rw [List.append_assoc, List.getElem?_append_right (by omega),
      List.getElem?_append_right (by simp)]
    simp

lemma jsSet_getD_ne (d : α) (xs : List α) (i : Nat) (v : α) {j : Nat} (h : j ≠ i) :
    (jsSet d xs i v).getD j d = xs.getD j d := by
  simp only [jsSet, List.getD_eq_getElem?_getD]
  split
  · rw [List.getElem?_set_ne (by omega)]
  · rename_i hlt
    rw [List.append_assoc, List.getElem?_append]
    split
    · rfl
    · rename_i hj
      have hxs : xs[j]? = none := List.getElem?_eq_none (by omega)
      rw [hxs]
      rcases Nat.lt_trichotomy (j - xs.length) (i - xs.length) with hk | hk | hk
      · rw [List.getElem?_append, if_pos (by simpa using hk), List.getElem?_replicate,
          if_pos hk]
        rfl
      · omega
      · rw [List.getElem?_eq_none (by simp; omega)]

/-- C2 (amended): a successful expand-more call sets the chapter's
ExpandedText to the generation result wholesale (the request prompt asks the
model to return existing + new content, but nothing enforces that the old
text is a prefix of the new or that the text grows), increments that
chapter's ExpansionCount by exactly 1, and leaves every other chapter's
entries, the chapter list and the stage pointers unchanged. -/
theorem c2_expand_more_amended (s : AppState) (i : Nat) (d : String) (s' : AppState)
    (hs' : s' = handleExpandMore s i (.okGood d)) :
    s'.expandedChapters.getD i "" = d ∧
    s'.expansionCounts.getD i 0 = s.expansionCounts.getD i 0 + 1 ∧
    (∀ j, j ≠ i → s'.expandedChapters.getD j "" = s.expandedChapters.getD j "" ∧
                  s'.expansionCounts.getD j 0 = s.expansionCounts.getD j 0) ∧
    s'.chapters = s.chapters ∧ s'.currentStep = s.currentStep ∧
    s'.currentChapterIndex = s.currentChapterIndex := by
  subst hs'
  exact ⟨jsSet_getD_self _ _ _ _, jsSet_getD_self _ _ _ _,
    fun j hj => ⟨jsSet_getD_ne _ _ _ _ hj, jsSet_getD_ne _ _ _ _ hj⟩, rfl, rfl, rfl⟩

/-- Witness for C2 (amended) at a concrete state and generation result. -/
theorem c2_expand_more_amended_witness :
    (handleExpandMore c2State 0 (.okGood "more text")).expandedChapters.getD 0 "" =
      "more text" ∧
    (handleExpandMore c2State 0 (.okGood "more text")).expansionCounts.getD 0 0 =
      c2State.expansionCounts.getD 0 0 + 1 ∧
    (handleExpandMore c2State 0 (.okGood "more text")).currentStep = c2State.currentStep := by
  have h := c2_expand_more_amended c2State 0 "more text" _ rfl
  exact ⟨h.1, h.2.1, h.2.2.2.2.1⟩

/-- Counterexample to C2 as stated: chapter 0's existing ExpandedText is
`"hello world"`; after an expand-more call whose generation returns `"x"`,
the new text is shorter and the old text is not its prefix — the operation
replaced the text instead of appending to it (the count still increments). -/
theorem c2_expand_more_counterexample :
    ¬ ((c2State.expandedChapters.getD 0 "").data.isPrefixOf
         ((handleExpandMore c2State 0 (.okGood "x")).expandedChapters.getD 0 "").data ∧
       (c2State.expandedChapters.getD 0 "").length <
         ((handleExpandMore c2State 0 (.okGood "x")).expandedChapters.getD 0 "").length) ∧
    (handleExpandMore c2State 0 (.okGood "x")).expansionCounts.getD 0 0 =
      c2State.expansionCounts.getD 0 0 + 1 := by
  decide

/-! ## C3: the chunker's round-trip property -/

lemma trimChars_cons_space (l : List Char) : trimChars (' ' :: l) = trimChars l := by
  simp [trimChars, List.dropWhile_cons, show isWSChar ' ' = true from rfl]

/-- C3 (amended): the chunker is a pure function of the text and budget, so
chunking twice yields the identical sequence by definition; but concatenation
reproduces the original text only in the degenerate case where the sentence
matcher treats the whole text as one unit and the text has no surrounding
whitespace — in general the chunker inserts a space between sentences, trims
chunk ends, and drops text outside any sentence match. -/
theorem c3_chunk_roundtrip_amended (text : List Char) (b : Nat)
    (h1 : matchSentences text = [text]) (h2 : trimChars text = text) :
    chunkText text b = [text] ∧ (chunkText text b).flatten = text := by
  have hmain : chunkText text b = [text] := by
    unfold chunkText
    rw [h1]
    show (if 0 + byteLen text > b then
        (if ([] : List Char).isEmpty then ([] : List (List Char)) else [trimChars []]) ++
          chunkLoop b [] text (byteLen text)
      else chunkLoop b [] ([] ++ [' '] ++ text) (0 + byteLen text)) = [text]
    by_cases hgt : 0 + byteLen text > b
    · rw [if_pos hgt]
      have hne : text.isEmpty = false := by
        cases text with
        | nil => simp [byteLen] at hgt
        | cons c l => rfl
      show (if text.isEmpty then ([] : List (List Char)) else [trimChars text]) = [text]
      rw [hne]
      simp [h2]
    · rw [if_neg hgt]
      show (if (' ' :: text).isEmpty then ([] : List (List Char))
            else [trimChars (' ' :: text)]) = [text]
      simp [trimChars_cons_space, h2]
  exact ⟨hmain, by rw [hmain]; simp⟩

/-- Witness for C3 (amended) at the single-sentence text `"hi."`. -/
theorem c3_chunk_roundtrip_amended_witness :
    chunkText ['h', 'i', '.'] 50000 = [['h', 'i', '.']] ∧
    (chunkText ['h', 'i', '.'] 50000).flatten = ['h', 'i', '.'] :=
  c3_chunk_roundtrip_amended ['h', 'i', '.'] 50000 (by decide) (by decide)

/-- Counterexample to C3 as stated: for the text `"a.b."` the chunker yields
the single chunk `"a. b."` (a space was inserted between the sentences), so
neither plain concatenation nor single-space-joined concatenation reproduces
the input; and for `"a.xyz"` the trailing `"xyz"` (matched by no sentence) is
dropped entirely. -/
theorem c3_chunk_roundtrip_counterexample :
    List.intercalate [' '] (chunkText ['a', '.', 'b', '.'] 50000) ≠ ['a', '.', 'b', '.'] ∧
    (chunkText ['a', '.', 'b', '.'] 50000).flatten ≠ ['a', '.', 'b', '.'] ∧
    (chunkText ['a', '.', 'x', 'y', 'z'] 50000).flatten ≠ ['a', '.', 'x', 'y', 'z'] := by
  decide

/-! ## C4: what the continuity propagator preserves -/

lemma getD_range_map (n : Nat) (f : Nat → α) (d : α) {i : Nat} (h : i < n) :
    ((List.range n).map f).getD i d = f i := by
  rw [List.getD_eq_getElem?_getD, List.getElem?_map, List.getElem?_range h]
  rfl

/-- C4 (amended): after a successful outline regeneration triggered by editing
chapter `k`'s instruction, ExpandedText and ExpansionCount are preserved for
indices `< k`, ExpandedText is cleared (and ExpansionCount reset to 0) for
indices `≥ k`, and per-chapter instructions are preserved for every index of
the new outline; the stage pointer moves to the expansion stage and the
chapter index is clamped to the new length.  The chapter records themselves,
however, are replaced wholesale by the generation result at *every* index —
prefix preservation is requested in the prompt, not enforced. -/
theorem c4_propagator_amended (s : AppState) (k : Nat) (er : Resp KeyElements)
    (cs : List ChapterJson) (ke : KeyElements) (s' : AppState)
    (hs' : s' = regenerateFromChapterPrompt s k er (.okGood cs))
    (hc : ¬ s.condensedDraft = "") (hk : s.keyElements = some ke) :
    s'.chapters = cs.map frontendValidateChapter ∧
    (∀ i, i < cs.length →
      (i < k → s'.expandedChapters.getD i "" = s.expandedChapters.getD i "" ∧
               s'.expansionCounts.getD i 0 = s.expansionCounts.getD i 0) ∧
      (k ≤ i → s'.expandedChapters.getD i "" = "" ∧ s'.expansionCounts.getD i 0 = 0) ∧
      s'.chapterPrompts.getD i "" = s.chapterPrompts.getD i "") ∧
    s'.currentStep = 3 ∧
    s'.currentChapterIndex =
      min s.currentChapterIndex (cs.map frontendValidateChapter).length ∧
    s'.keyElements = s.keyElements ∧
    s'.condensedDraft = s.condensedDraft ∧
    s'.draft = s.draft := by
  subst hs'
  unfold regenerateFromChapterPrompt
  rw [if_neg hc, hk]
  refine ⟨rfl, ?_, rfl, rfl, rfl, rfl, rfl⟩
  intro i hi
  have hi' : i < (cs.map frontendValidateChapter).length := by simpa using hi
  refine ⟨fun hik => ⟨?_, ?_⟩, fun hki => ⟨?_, ?_⟩, ?_⟩
  · exact (getD_range_map _ _ _ hi').trans (if_pos hik)
  · exact (getD_range_map _ _ _ hi').trans (if_pos hik)
  · exact (getD_range_map _ _ _ hi').trans (if_neg (by omega))
  · exact (getD_range_map _ _ _ hi').trans (if_neg (by omega))
  · exact getD_range_map _ _ _ hi'

/-- Witness for C4 (amended) on the eight-chapter state, editing index 3. -/
theorem c4_propagator_amended_witness :
    (regenerateFromChapterPrompt c4State 3 .notOk (.okGood c4Resp)).expandedChapters.getD 2 ""
      = c4State.expandedChapters.getD 2 "" ∧
    (regenerateFromChapterPrompt c4State 3 .notOk (.okGood c4Resp)).expandedChapters.getD 3 ""
      = "" ∧
    (regenerateFromChapterPrompt c4State 3 .notOk (.okGood c4Resp)).chapterPrompts.getD 5 ""
      = c4State.chapterPrompts.getD 5 "" ∧
    (regenerateFromChapterPrompt c4State 3 .notOk (.okGood c4Resp)).currentStep = 3 := by
  have h := c4_propagator_amended c4State 3 .notOk c4Resp sampleKE _ rfl (by decide) rfl
  exact ⟨((h.2.1 2 (by decide)).1 (by decide)).1, ((h.2.1 3 (by decide)).2.1 (by decide)).1,
    (h.2.1 5 (by decide)).2.2, h.2.2.1⟩

/-- Counterexample to C4 as stated: with the eight-chapter state and an
outline reply that returns a different title for chapter 0, re-running the
propagator from edited index 3 does *not* leave chapter 0 byte-identical —
the whole chapter array is replaced by the model's response. -/
theorem c4_propagator_counterexample :
    (regenerateFromChapterPrompt c4State 3 .notOk (.okGood c4Resp)).chapters[0]? ≠
      c4State.chapters[0]? := by
  decide

/-! ## C5: what a failed stage leaves untouched -/

/-- C5 (amended): whenever `processStep` fails (its error message is set), the
stage pointer `currentStep` and the current chapter index are unchanged, and
so are the condensed draft, key elements, chapter list, expansion counts and
per-chapter prompts; the expanded-chapter texts are unchanged at every index
other than the current chapter index.  (The entry at the current index itself
can change: when chapter expansion succeeds and the subsequent image-prompt or
image response body fails to parse, the freshly generated expansion text was
already committed before the throw.)  Calling advance again therefore retries
the same stage. -/
theorem c5_failure_no_advance_amended (s : AppState) (o : StepOracle) (s' : AppState)
    (hs' : s' = processStep s o) (hfail : s'.error ≠ "") :
    s'.currentStep = s.currentStep ∧
    s'.currentChapterIndex = s.currentChapterIndex ∧
    s'.condensedDraft = s.condensedDraft ∧
    s'.keyElements = s.keyElements ∧
    s'.chapters = s.chapters ∧
    s'.expansionCounts = s.expansionCounts ∧
    s'.chapterPrompts = s.chapterPrompts ∧
    s'.draft = s.draft ∧
    (∀ j, j ≠ s.currentChapterIndex →
      s'.expandedChapters.getD j "" = s.expandedChapters.getD j "") := by
  subst hs'
  simp only [processStep] at hfail ⊢
  by_cases h0 : s.currentStep = 0
  · rw [if_pos h0] at hfail ⊢
    rcases hsl : summarizeLoop o.summarize (chunkText s.draft.data 50000).length with _ | c
    · exact ⟨rfl, rfl, rfl, rfl, rfl, rfl, rfl, rfl, fun j _ => rfl⟩
    · simp [hsl] at hfail
  · rw [if_neg h0] at hfail ⊢
    by_cases h1 : s.currentStep = 1
    · rw [if_pos h1] at hfail ⊢
      rcases he : o.extract with _ | _ | ke
      · exact ⟨rfl, rfl, rfl, rfl, rfl, rfl, rfl, rfl, fun j _ => rfl⟩
      · exact ⟨rfl, rfl, rfl, rfl, rfl, rfl, rfl, rfl, fun j _ => rfl⟩
      · simp [he] at hfail
    · rw [if_neg h1] at hfail ⊢
      by_cases h2 : s.currentStep = 2
      · rw [if_pos h2] at hfail ⊢
        rcases ho : o.outline with _ | _ | cs
        · exact ⟨rfl, rfl, rfl, rfl, rfl, rfl, rfl, rfl, fun j _ => rfl⟩
        · exact ⟨rfl, rfl, rfl, rfl, rfl, rfl, rfl, rfl, fun j _ => rfl⟩
        · simp [ho] at hfail
      · rw [if_neg h2] at hfail ⊢
        by_cases h3 : s.currentStep = 3 ∧ s.currentChapterIndex < s.chapters.length
        · rw [if_pos h3] at hfail ⊢
          rcases hex : o.expand with _ | _ | details
          · exact ⟨rfl, rfl, rfl, rfl, rfl, rfl, rfl, rfl, fun j _ => rfl⟩
          · exact ⟨rfl, rfl, rfl, rfl, rfl, rfl, rfl, rfl, fun j _ => rfl⟩
          · rcases hip : o.imagePrompt with _ | _ | p
            · simp [hex, hip, finishChapter, apply_ite] at hfail
            · exact ⟨rfl, rfl, rfl, rfl, rfl, rfl, rfl, rfl,
                fun j hj => jsSet_getD_ne _ _ _ _ hj⟩
            · rcases him : o.image with _ | _ | u
              · simp [hex, hip, him, finishChapter, apply_ite] at hfail
              · exact ⟨rfl, rfl, rfl, rfl, rfl, rfl, rfl, rfl,
                  fun j hj => jsSet_getD_ne _ _ _ _ hj⟩
              · simp [hex, hip, him, finishChapter, apply_ite] at hfail
        · rw [if_neg h3] at hfail
          simp at hfail

/-- Witness for C5 (amended): a concrete failing call (the outline reply is
unparseable at stage 2). -/
theorem c5_failure_no_advance_amended_witness :
    (processStep { c5State with currentStep := 2 } c5Oracle).currentStep =
      ({ c5State with currentStep := 2 } : AppState).currentStep ∧
    (processStep { c5State with currentStep := 2 } c5Oracle).chapters =
      ({ c5State with currentStep := 2 } : AppState).chapters := by
  have h := c5_failure_no_advance_amended { c5State with currentStep := 2 } c5Oracle _
    rfl (by decide)
  exact ⟨h.1, h.2.2.2.2.1⟩

/-- Counterexample to C5 as stated: at the expansion stage, when the chapter
expansion succeeds but the image-prompt response body fails to parse, the
call fails (the error message is set, the stage pointer and chapter index are
unchanged) — yet the expanded-chapters artifact *was* modified: the current
chapter's slot now holds the newly generated text. -/
theorem c5_failure_artifact_modified_counterexample :
    (processStep c5State c5Oracle).error ≠ "" ∧
    (processStep c5State c5Oracle).currentStep = c5State.currentStep ∧
    (processStep c5State c5Oracle).currentChapterIndex = c5State.currentChapterIndex ∧
    (processStep c5State c5Oracle).expandedChapters ≠ c5State.expandedChapters := by
  decide

/-! ## C8: stale fingerprints are silently overwritten, never compared -/

/-- C8 (code-bug exhibit): `c8State` is a state restored from saved progress
whose stored fingerprint is `"oldhash"`, while the current draft hashes to
`"newhash"`.  Submitting nevertheless resumes from the saved progress: the
fingerprint mismatch is real (first conjunct), yet no error is raised, the
pipeline advances a stage using the stale condensed draft, and the stored
fingerprint is simply overwritten with the new one.  The comparison the spec
requires exists in an earlier revision of the component but not here. -/
theorem c8_stale_fingerprint_silently_reused :
    c8Hash c8State.draft ≠ c8State.draftHash ∧
    (handleSubmit c8State c8Hash .notOk c8Oracle).error = "" ∧
    (handleSubmit c8State c8Hash .notOk c8Oracle).currentStep = 2 ∧
    (handleSubmit c8State c8Hash .notOk c8Oracle).condensedDraft = c8State.condensedDraft ∧
    (handleSubmit c8State c8Hash .notOk c8Oracle).draftHash = c8Hash c8State.draft := by
  decide

end Storyteller
